import Mathlib

/-!
# Verification of the room-occupancy dashboard core (`script.js`)

Shallow embedding of the latest-reading reconciliation and
status-classification pipeline of the static dashboard:

* `fetchLatestRoomCounts` (script.js lines 136-165): the per-room grouping
  of the descending-by-timestamp row window into a plain JS object
  `roomMap`, returned through `Object.values`.
* `getOccupancyStatus` (lines 254-262): the 3-tier occupancy classifier.
* `formatTimestamp` (lines 267-289): the human-relative freshness label.
* `loadRoomData` (lines 173-204): the refresh orchestrator with its
  `isLoading` in-flight guard and `finally` cleanup.
* A `ReadingRecord` normalizer modelled from the specification (the
  alias-tolerant normalization is documented in the repository but its
  implementation is not among the provided sources).

JavaScript semantics that matter here and are embedded faithfully:

* `!roomMap[k]` tests truthiness of a property lookup that falls back to
  the prototype chain, so keys naming `Object.prototype` members
  (`"toString"`, `"constructor"`, ...) always look occupied.
* `Object.values` enumerates integer-like keys (canonical array indices)
  first in ascending numeric order, then the remaining string keys in
  insertion order.
* `Math.floor` of a division is flooring division (`Int.fdiv`).
* `new Date(badString)` does not throw; it yields an invalid date whose
  `NaN` comparisons are all false, so the code's `catch` fallback is
  not reached and `toLocaleTimeString` renders the invalid date.
-/

namespace RoomOccupancy

/-- A row of the fetched window, as selected by
`select('room_id, timestamp, people_count')`: room key, observation
instant (epoch milliseconds), raw count. -/
structure Record where
  room_id : String
  timestamp : Int
  people_count : Int
deriving DecidableEq

/-- The property names of `Object.prototype`: a lookup of any of these on
a plain object `{}` returns an inherited (truthy) value. -/
def objectProtoProps : List String :=
  ["constructor", "hasOwnProperty", "isPrototypeOf", "propertyIsEnumerable",
   "toLocaleString", "toString", "valueOf", "__defineGetter__",
   "__defineSetter__", "__lookupGetter__", "__lookupSetter__", "__proto__"]

/-- `k` is inherited from `Object.prototype`. -/
def jsProtoProp (k : String) : Bool :=
  decide (k ∈ objectProtoProps)

/-- Truthiness of `roomMap[k]` for an object with own entries `m` (own
record values are always truthy objects): an own property exists, or the
lookup falls through to a truthy `Object.prototype` member. -/
def jsTruthyLookup (m : List (String × Record)) (k : String) : Bool :=
  decide (k ∈ m.map Prod.fst) || jsProtoProp k

/-- One iteration of the grouping loop:
`if (!roomMap[record.room_id]) roomMap[record.room_id] = record`.
A new own property is appended in insertion order. -/
def roomMapInsert (m : List (String × Record)) (r : Record) :
    List (String × Record) :=
  if jsTruthyLookup m r.room_id then m else m ++ [(r.room_id, r)]

/-- The `for (const record of data)` loop over the fetched rows. -/
def buildRoomMapAux (m : List (String × Record)) :
    List Record → List (String × Record)
  | [] => m
  | r :: rs => buildRoomMapAux (roomMapInsert m r) rs

/-- The own entries of `roomMap` after the grouping loop, in property
insertion order. -/
def buildRoomMap (data : List Record) : List (String × Record) :=
  buildRoomMapAux [] data

/-- Numeric value of a decimal digit string. -/
def digitsToNat (cs : List Char) : Nat :=
  cs.foldl (fun n c => n * 10 + (c.toNat - 48)) 0

/-- A string key is a canonical array index (ECMAScript integer-like
property key): a canonical decimal numeral — nonempty, all digits, no
leading zero except `"0"` itself — whose value is below `2^32 - 1`. -/
def isArrayIndexKey (s : String) : Bool :=
  let cs := s.toList
  !cs.isEmpty && cs.all (fun c => c.isDigit) &&
    (cs.length == 1 || cs.head? != some '0') &&
    decide (digitsToNat cs < 4294967295)

/-- Numeric value of an integer-like key (`0` for others; only applied to
array-index keys). -/
def keyNat (s : String) : Nat :=
  digitsToNat s.toList

/-- Enumeration order comparison of two array-index entries. -/
def idxLe (p q : String × Record) : Prop :=
  keyNat p.1 ≤ keyNat q.1

instance : DecidableRel idxLe :=
  fun p q => inferInstanceAs (Decidable (keyNat p.1 ≤ keyNat q.1))

/-- `Object.values`: canonical array-index keys first, in ascending
numeric order, then the remaining keys in insertion order. -/
def jsObjectValues (m : List (String × Record)) : List Record :=
  ((m.filter fun p => isArrayIndexKey p.1).insertionSort idxLe ++
    m.filter fun p => !isArrayIndexKey p.1).map Prod.snd

/-- `fetchLatestRoomCounts` after the query resolves (script.js lines
152-160): group the descending-time window by `room_id`, first record
per room wins, return `Object.values(roomMap)`. -/
def fetchGroup (data : List Record) : List Record :=
  jsObjectValues (buildRoomMap data)

example : fetchGroup [⟨"A", 10, 3⟩, ⟨"A", 5, 7⟩, ⟨"B", 5, 0⟩] =
    [⟨"A", 10, 3⟩, ⟨"B", 5, 0⟩] := by decide

example : fetchGroup [⟨"2", 10, 1⟩, ⟨"1", 5, 2⟩] =
    [⟨"1", 5, 2⟩, ⟨"2", 10, 1⟩] := by decide

example : fetchGroup [⟨"toString", 10, 3⟩] = [] := by decide

/-! ## Structural lemmas about the grouping loop -/

/-- If a key does not look occupied after inserting a record, it did not
look occupied before either. -/
lemma jsTruthyLookup_insert_false {m : List (String × Record)} {r' : Record}
    {k : String} (h : jsTruthyLookup (roomMapInsert m r') k = false) :
    jsTruthyLookup m k = false := by
  unfold roomMapInsert at h
  split at h
  · exact h
  · unfold jsTruthyLookup at h ⊢
    simp only [List.map_append, List.map_cons, List.map_nil,
      Bool.or_eq_false_iff, decide_eq_false_iff_not, List.mem_append,
      not_or] at h ⊢
    exact ⟨h.1.1, h.2⟩

/-- Every entry of the room map built from `data` on top of `m` either was
in `m` already, or is the first record of `data` carrying its room key, a
key that is neither a prototype property nor already occupied in `m`. -/
lemma buildRoomMapAux_mem :
    ∀ (data : List Record) (m : List (String × Record)) (k : String)
      (r : Record), (k, r) ∈ buildRoomMapAux m data →
      (k, r) ∈ m ∨
        (k = r.room_id ∧ jsProtoProp k = false ∧ jsTruthyLookup m k = false ∧
          data.find? (fun s => s.room_id == k) = some r)
  | [], _, _, _, h => Or.inl h
  | r' :: rs, m, k, r, h => by
    rcases buildRoomMapAux_mem rs (roomMapInsert m r') k r h with
      hin | ⟨hk, hp, ht, hf⟩
    · unfold roomMapInsert at hin
      split at hin
      · exact Or.inl hin
      · rename_i hcond
        rcases List.mem_append.1 hin with him | heq
        · exact Or.inl him
        · simp only [List.mem_singleton, Prod.mk.injEq] at heq
          obtain ⟨hk, hr⟩ := heq
          subst hk
          subst hr
          have hcond' : jsTruthyLookup m r.room_id = false :=
            Bool.eq_false_iff.mpr hcond
          refine Or.inr ⟨rfl, ?_, hcond', ?_⟩
          · have := hcond'
            unfold jsTruthyLookup at this
            exact (Bool.or_eq_false_iff.1 this).2
          · exact List.find?_cons_of_pos _ (by simp)
    · have ht' : jsTruthyLookup m k = false := jsTruthyLookup_insert_false ht
      have hne : ¬ r'.room_id = k := by
        intro he
        unfold roomMapInsert at ht
        split at ht
        · rename_i hcond
          rw [he] at hcond
          rw [ht'] at hcond
          exact Bool.noConfusion hcond
        · unfold jsTruthyLookup at ht
          simp only [List.map_append, List.map_cons, List.map_nil,
            Bool.or_eq_false_iff, decide_eq_false_iff_not, List.mem_append,
            not_or] at ht
          exact ht.1.2 (by simp [he])
      refine Or.inr ⟨hk, hp, ht', ?_⟩
      rw [List.find?_cons_of_neg _ (by simp [hne])]
      exact hf

/-- Every value returned by `Object.values` is the value of some own
entry of the object. -/
lemma mem_jsObjectValues {m : List (String × Record)} {r : Record}
    (h : r ∈ jsObjectValues m) : ∃ k, (k, r) ∈ m := by
  unfold jsObjectValues at h
  rcases List.mem_map.1 h with ⟨p, hp, hpr⟩
  obtain ⟨k, v⟩ := p
  cases hpr
  rcases List.mem_append.1 hp with h1 | h2
  · exact ⟨k, List.mem_of_mem_filter ((List.mem_insertionSort idxLe).1 h1)⟩
  · exact ⟨k, List.mem_of_mem_filter h2⟩

/-- Every record returned by the grouping is the first input record of its
room, and its room key is not a prototype property. -/
lemma fetchGroup_mem {data : List Record} {r : Record}
    (h : r ∈ fetchGroup data) :
    jsProtoProp r.room_id = false ∧
      data.find? (fun s => s.room_id == r.room_id) = some r := by
  obtain ⟨k, hk⟩ := mem_jsObjectValues h
  rcases buildRoomMapAux_mem data [] k r hk with habs | ⟨hkr, hp, _, hf⟩
  · exact absurd habs (List.not_mem_nil _)
  · subst hkr
    exact ⟨hp, hf⟩

/-- In a list sorted by descending timestamp, the first record matched by
`find?` has a timestamp at least that of every record of the same room. -/
lemma find?_timestamp_max :
    ∀ {l : List Record},
      l.Pairwise (fun a b => b.timestamp ≤ a.timestamp) →
      ∀ {k : String} {r : Record},
        l.find? (fun s => s.room_id == k) = some r →
        ∀ s ∈ l, s.room_id = k → s.timestamp ≤ r.timestamp := by
  intro l
  induction l with
  | nil => intro _ _ _ hf; simp [List.find?] at hf
  | cons a l ih =>
    intro hs k r hf s hsl hsk
    obtain ⟨hhead, htail⟩ := List.pairwise_cons.1 hs
    by_cases hak : a.room_id = k
    · rw [List.find?_cons_of_pos _ (by simp [hak])] at hf
      cases hf
      rcases List.mem_cons.1 hsl with rfl | hmem
      · exact le_refl _
      · exact hhead s hmem
    · rw [List.find?_cons_of_neg _ (by simp [hak])] at hf
      rcases List.mem_cons.1 hsl with rfl | hmem
      · exact absurd hsk hak
      · exact ih htail hf s hmem hsk

/-! ## C1: latest-wins reduction -/

/-- C1: under the precondition that the fetched rows are ordered by
observation timestamp descending, every record retained by the per-room
grouping of `fetchLatestRoomCounts` is the first input record carrying its
room key (so on equal timestamps the record encountered first in input
order is retained), and its `timestamp` is at least the `timestamp` of
every input record of the same room. -/
theorem claim_C1_latest_wins (data : List Record)
    (hsorted : data.Pairwise (fun a b => b.timestamp ≤ a.timestamp)) :
    ∀ r ∈ fetchGroup data,
      data.find? (fun s => s.room_id == r.room_id) = some r ∧
        ∀ s ∈ data, s.room_id = r.room_id → s.timestamp ≤ r.timestamp := by
  intro r hr
  have h := fetchGroup_mem hr
  exact ⟨h.2, find?_timestamp_max hsorted h.2⟩

/-- Witness for C1 on the spec's scenario rows: room `"A"` has two
readings, the grouped record is the first (latest) one and dominates the
older reading's timestamp. -/
theorem claim_C1_witness :
    ([⟨"A", 10, 3⟩, ⟨"A", 5, 7⟩, ⟨"B", 5, 0⟩] : List Record).find?
        (fun s => s.room_id == (⟨"A", 10, 3⟩ : Record).room_id) =
      some ⟨"A", 10, 3⟩ ∧
      (⟨"A", 5, 7⟩ : Record).timestamp ≤ (⟨"A", 10, 3⟩ : Record).timestamp := by
  have h := claim_C1_latest_wins [⟨"A", 10, 3⟩, ⟨"A", 5, 7⟩, ⟨"B", 5, 0⟩]
    (by decide) ⟨"A", 10, 3⟩ (by decide)
  exact ⟨h.1, h.2 ⟨"A", 5, 7⟩ (by decide) rfl⟩

/-! ## C10: rooms named after `Object.prototype` members are lost -/

/-- C10: because the grouping tests presence with a truthiness check on a
plain-object property lookup, a fetched row whose `room_id` is an
inherited `Object.prototype` property name is never retained: no record
with such a room key ever occurs in the returned room list. -/
theorem claim_C10_proto_keyed_rooms_absent (data : List Record)
    (k : String) (hk : k ∈ objectProtoProps) :
    ∀ r ∈ fetchGroup data, r.room_id ≠ k := by
  intro r hr he
  have h := (fetchGroup_mem hr).1
  rw [he] at h
  unfold jsProtoProp at h
  simp [hk] at h

/-- Witness for C10: a window whose only reading for room `"toString"`
is dropped wholesale; only room `"B"` survives. -/
theorem claim_C10_witness :
    fetchGroup [⟨"toString", 10, 3⟩, ⟨"B", 5, 1⟩] = [⟨"B", 5, 1⟩] ∧
      (⟨"B", 5, 1⟩ : Record).room_id ≠ "toString" := by
  refine ⟨by decide, ?_⟩
  exact claim_C10_proto_keyed_rooms_absent [⟨"toString", 10, 3⟩, ⟨"B", 5, 1⟩]
    "toString" (by decide) ⟨"B", 5, 1⟩ (by decide)

/-! ## C7: result order of the reducer -/

/-- The spec's description of the result order ("insertion order of
first-seen rooms"), restricted to the keys the grouping actually
retains: each room key in order of first appearance. -/
def seenInsert (acc : List String) (k : String) : List String :=
  if decide (k ∈ acc) || jsProtoProp k then acc else acc ++ [k]

/-- First-seen order of the retained room keys of `data`. -/
def firstSeenRooms (data : List Record) : List String :=
  data.foldl (fun acc r => seenInsert acc r.room_id) []

/-- Inserting a record into the room map extends its key list the same
way `seenInsert` extends a seen-key list. -/
lemma map_fst_roomMapInsert (m : List (String × Record)) (r : Record) :
    (roomMapInsert m r).map Prod.fst = seenInsert (m.map Prod.fst) r.room_id := by
  unfold roomMapInsert seenInsert jsTruthyLookup
  by_cases h : (decide (r.room_id ∈ m.map Prod.fst) || jsProtoProp r.room_id) = true
  · rw [if_pos h, if_pos h]
  · rw [if_neg h, if_neg h, List.map_append]
    rfl

/-- The key list of the built room map is the first-seen fold of the
input's room keys. -/
lemma buildRoomMapAux_keys :
    ∀ (data : List Record) (m : List (String × Record)),
      (buildRoomMapAux m data).map Prod.fst =
        data.foldl (fun acc r => seenInsert acc r.room_id) (m.map Prod.fst)
  | [], _ => rfl
  | r :: rs, m => by
    rw [buildRoomMapAux, List.foldl_cons, buildRoomMapAux_keys rs,
      map_fst_roomMapInsert]

/-- Every entry of the built room map keys the room of its record, which
is a record of the input. -/
lemma buildRoomMap_entry {data : List Record} {k : String} {r : Record}
    (h : (k, r) ∈ buildRoomMap data) : k = r.room_id ∧ r ∈ data := by
  rcases buildRoomMapAux_mem data [] k r h with habs | ⟨hk, _, _, hf⟩
  · exact absurd habs (List.not_mem_nil _)
  · exact ⟨hk, List.mem_of_find?_eq_some hf⟩

/-- C7 counterexample: rooms keyed by canonical numeric strings are
re-ordered by `Object.values`. Room `"2"` is seen before room `"1"`, yet
the returned list puts `"1"` first — the claimed insertion order fails at
this input. -/
theorem claim_C7_counterexample :
    ((fetchGroup [⟨"2", 10, 1⟩, ⟨"1", 5, 2⟩]).map fun r => r.room_id) =
        ["1", "2"] ∧
      (([⟨"2", 10, 1⟩, ⟨"1", 5, 2⟩] : List Record).map fun r => r.room_id) =
        ["2", "1"] ∧
      ((fetchGroup [⟨"2", 10, 1⟩, ⟨"1", 5, 2⟩]).map fun r => r.room_id) ≠
        ["2", "1"] := by
  exact ⟨by decide, by decide, by decide⟩

/-- C7 (amended): the grouped list is in insertion order of first-seen
retained rooms provided no room identifier is a canonical array-index
string; `Object.values` emits integer-like keys first, in ascending
numeric order, before the remaining keys in insertion order. -/
theorem claim_C7_first_seen_order (data : List Record)
    (h : ∀ r ∈ data, isArrayIndexKey r.room_id = false) :
    (fetchGroup data).map (fun r => r.room_id) = firstSeenRooms data := by
  have hkeys : ∀ p ∈ buildRoomMap data, isArrayIndexKey p.1 = false := by
    intro p hp
    obtain ⟨k, v⟩ := p
    obtain ⟨hk, hv⟩ := buildRoomMap_entry hp
    rw [hk]
    exact h v hv
  have h1 : (buildRoomMap data).filter (fun p => isArrayIndexKey p.1) = [] := by
    rw [List.filter_eq_nil_iff]
    intro p hp
    simp [hkeys p hp]
  have h2 : (buildRoomMap data).filter (fun p => !isArrayIndexKey p.1) =
      buildRoomMap data := by
    rw [List.filter_eq_self]
    intro p hp
    simp [hkeys p hp]
  unfold fetchGroup jsObjectValues
  rw [h1, h2, show List.insertionSort idxLe [] = [] from rfl,
    List.nil_append, List.map_map]
  have h3 : (buildRoomMap data).map ((fun r => r.room_id) ∘ Prod.snd) =
      (buildRoomMap data).map Prod.fst := by
    refine List.map_congr_left ?_
    intro p hp
    obtain ⟨k, v⟩ := p
    exact ((buildRoomMap_entry hp).1).symm
  rw [h3]
  exact buildRoomMapAux_keys data []

/-- Witness for C7 (amended) on non-numeric room names: output order is
the first-seen order `["B", "A"]`. -/
theorem claim_C7_witness :
    ((fetchGroup [⟨"B", 10, 1⟩, ⟨"A", 5, 2⟩]).map fun r => r.room_id) =
        firstSeenRooms [⟨"B", 10, 1⟩, ⟨"A", 5, 2⟩] ∧
      firstSeenRooms [⟨"B", 10, 1⟩, ⟨"A", 5, 2⟩] = ["B", "A"] :=
  ⟨claim_C7_first_seen_order [⟨"B", 10, 1⟩, ⟨"A", 5, 2⟩] (by decide), by decide⟩

/-! ## C5: occupancy classification -/

/-- The occupancy tiers of the deployed 3-tier profile, in tier order. -/
inductive OccStatus where
  | empty
  | moderate
  | full
deriving DecidableEq

/-- Position of a tier in tier order. -/
def tierRank : OccStatus → Nat
  | .empty => 0
  | .moderate => 1
  | .full => 2

/-- `getOccupancyStatus` (script.js lines 254-262): `count === 0` is
`empty`, else `count <= 5` is `moderate`, otherwise `full`, each paired
with its display color. -/
def getOccupancyStatus (count : Int) : OccStatus × String :=
  if count = 0 then (.empty, "#0369a1")
  else if count ≤ 5 then (.moderate, "#92400e")
  else (.full, "#991b1b")

/-- C5: on every non-negative integer count the classifier yields exactly
one tier (it is a total function, and the three cases partition the
domain): `0 ↦ empty`, `0 < c ≤ 5 ↦ moderate`, `5 < c ↦ full`, inclusive
at the lower-tier side of the boundary; and it is monotone in tier
order. -/
theorem claim_C5_classifier :
    (∀ c : Nat,
        ((c : Int) = 0 → (getOccupancyStatus (c : Int)).1 = OccStatus.empty) ∧
          (0 < c → c ≤ 5 →
            (getOccupancyStatus (c : Int)).1 = OccStatus.moderate) ∧
          (5 < c → (getOccupancyStatus (c : Int)).1 = OccStatus.full)) ∧
      ∀ a b : Nat, a < b →
        tierRank (getOccupancyStatus (a : Int)).1 ≤
          tierRank (getOccupancyStatus (b : Int)).1 := by
  constructor
  · intro c
    refine ⟨?_, ?_, ?_⟩
    · intro hc
      simp [getOccupancyStatus, hc]
    · intro h1 h5
      unfold getOccupancyStatus
      rw [if_neg (by omega), if_pos (by omega)]
    · intro h5
      unfold getOccupancyStatus
      rw [if_neg (by omega), if_neg (by omega)]
  · intro a b hab
    unfold getOccupancyStatus
    split_ifs <;> simp [tierRank] <;> omega

/-- Witness for C5 at the boundary values 0, 3 (spec scenario 1), 5 and
6. -/
theorem claim_C5_witness :
    (getOccupancyStatus ((0 : Nat) : Int)).1 = OccStatus.empty ∧
      (getOccupancyStatus ((3 : Nat) : Int)).1 = OccStatus.moderate ∧
      (getOccupancyStatus ((5 : Nat) : Int)).1 = OccStatus.moderate ∧
      (getOccupancyStatus ((6 : Nat) : Int)).1 = OccStatus.full ∧
      tierRank (getOccupancyStatus ((5 : Nat) : Int)).1 ≤
        tierRank (getOccupancyStatus ((6 : Nat) : Int)).1 := by
  refine ⟨(claim_C5_classifier.1 0).1 rfl,
    (claim_C5_classifier.1 3).2.1 (by decide) (by decide),
    (claim_C5_classifier.1 5).2.1 (by decide) (by decide),
    (claim_C5_classifier.1 6).2.2 (by decide),
    claim_C5_classifier.2 5 6 (by decide)⟩

/-! ## Freshness formatting (C8, C9) -/

/-- `formatTimestamp` (script.js lines 267-289). `parsed` is the result
of `new Date(isoString)`: `some t` for a parsable timestamp at epoch
millisecond `t`, `none` for an invalid date (an unparsable string does
not make the constructor throw). `Math.floor` of the millisecond
quotients is flooring division. On an invalid date, `NaN` comparisons
are all false and control reaches `toLocaleTimeString`, whose rendering
of the invalid date is `invalidRender` (the `catch` fallback `'Unknown'`
is not reachable for string inputs); `localeTime` is its rendering of a
valid date. -/
def formatTimestamp (localeTime : Int → String) (invalidRender : String)
    (parsed : Option Int) (now : Int) : String :=
  match parsed with
  | none => invalidRender
  | some t =>
    let diffMs := now - t
    let diffMins := diffMs.fdiv 60000
    let diffSecs := diffMs.fdiv 1000
    if diffMins < 1 then toString diffSecs ++ "s ago"
    else if diffMins < 60 then toString diffMins ++ "m ago"
    else localeTime t

/-- Unfolding of the valid-date branch. -/
lemma formatTimestamp_some (localeTime : Int → String) (invalidRender : String)
    (t now : Int) :
    formatTimestamp localeTime invalidRender (some t) now =
      if (now - t).fdiv 60000 < 1 then
        toString ((now - t).fdiv 1000) ++ "s ago"
      else if (now - t).fdiv 60000 < 60 then
        toString ((now - t).fdiv 60000) ++ "m ago"
      else localeTime t := rfl

/-- C8 counterexample: an observation 30 seconds in the future is
labelled `"-30s ago"`, not `"0s ago"` — the claimed clock-skew clamping
does not exist in the code. -/
theorem claim_C8_counterexample :
    formatTimestamp (fun _ => "12:00:00") "Invalid Date" (some 30000) 0 =
        "-30s ago" ∧ ("-30s ago" : String) ≠ "0s ago" := by
  exact ⟨by decide, by decide⟩

/-- C8 (amended): for an `observedAt` strictly in the future the
formatter takes the seconds branch and produces the negative-duration
label `"{floor(diff/1000)}s ago"` (no clamping to `"0s ago"`), and for an
unparsable timestamp it returns the host's invalid-date rendering of
`toLocaleTimeString` (not `"Unknown"`, whose `catch` is unreachable);
it never throws — it is a total function. -/
theorem claim_C8_future_label (localeTime : Int → String)
    (invalidRender : String) (t now : Int) :
    (now < t →
        formatTimestamp localeTime invalidRender (some t) now =
            toString ((now - t).fdiv 1000) ++ "s ago" ∧
          (now - t).fdiv 1000 < 0) ∧
      formatTimestamp localeTime invalidRender none now = invalidRender := by
  constructor
  · intro h
    have h60 : (now - t).fdiv 60000 = (now - t) / 60000 :=
      Int.fdiv_eq_ediv _ (by norm_num)
    have h1000 : (now - t).fdiv 1000 = (now - t) / 1000 :=
      Int.fdiv_eq_ediv _ (by norm_num)
    constructor
    · rw [formatTimestamp_some, if_pos (by rw [h60]; omega)]
    · rw [h1000]
      omega
  · rfl

/-- Witness for C8: the future observation at `t = 30000`, `now = 0`. -/
theorem claim_C8_witness :
    formatTimestamp (fun _ => "12:00:00") "Invalid Date" (some 30000) 0 =
        toString (((0 : Int) - 30000).fdiv 1000) ++ "s ago" ∧
      ((0 : Int) - 30000).fdiv 1000 < 0 ∧
      formatTimestamp (fun _ => "12:00:00") "Invalid Date" none 0 =
        "Invalid Date" := by
  have h := claim_C8_future_label (fun _ => "12:00:00") "Invalid Date" 30000 0
  exact ⟨(h.1 (by decide)).1, (h.1 (by decide)).2, h.2⟩

/-- C9 counterexample: ages 5min30s and exactly 5min — one beyond the
claimed five-minute staleness threshold, one not — produce the identical
output `"5m ago"`, so no reading of the formatter's output is a stale
flag separating them; the formatter's output carries no `isStale`. -/
theorem claim_C9_counterexample :
    formatTimestamp (fun _ => "") "" (some 0) 330000 = "5m ago" ∧
      formatTimestamp (fun _ => "") "" (some 0) 300000 = "5m ago" ∧
      (330000 : Int) - 0 > 5 * 60000 ∧
      ¬((300000 : Int) - 0 > 5 * 60000) ∧
      ¬∃ isStaleRead : String → Bool,
          isStaleRead (formatTimestamp (fun _ => "") "" (some 0) 330000) =
              true ∧
            isStaleRead (formatTimestamp (fun _ => "") "" (some 0) 300000) =
              false := by
  have e1 : formatTimestamp (fun _ => "") "" (some 0) 330000 = "5m ago" := by
    decide
  have e2 : formatTimestamp (fun _ => "") "" (some 0) 300000 = "5m ago" := by
    decide
  refine ⟨e1, e2, by decide, by decide, ?_⟩
  rintro ⟨f, h1, h2⟩
  rw [e1] at h1
  rw [e2] at h2
  rw [h1] at h2
  exact Bool.noConfusion h2

/-- C9 (amended): the freshness formatter returns only a relative label
and computes no staleness flag; there is no observable five-minute
threshold in its output (ages 5min and 5min30s format identically), and
an observation 10 minutes before `now` is labelled `"10m ago"`. -/
theorem claim_C9_no_staleness_flag (localeTime : Int → String)
    (invalidRender : String) (t : Int) :
    formatTimestamp localeTime invalidRender (some t) (t + 600000) =
        "10m ago" ∧
      formatTimestamp localeTime invalidRender (some t) (t + 300000) =
        formatTimestamp localeTime invalidRender (some t) (t + 330000) := by
  rw [formatTimestamp_some, formatTimestamp_some, formatTimestamp_some,
    show t + 600000 - t = (600000 : Int) by ring,
    show t + 300000 - t = (300000 : Int) by ring,
    show t + 330000 - t = (330000 : Int) by ring]
  constructor
  · rw [if_neg (by decide), if_pos (by decide)]
    decide
  · rw [if_neg (by decide), if_pos (by decide), if_neg (by decide),
      if_pos (by decide)]
    decide

/-! ## Refresh orchestration (C2, C6)

`loadRoomData` (script.js lines 173-204) runs on the page state: the
`isLoading` flag, the refresh button, the loading / error / empty-state
panels and the room grid. The function suspends exactly once, at
`await fetchLatestRoomCounts()`; we split it there into `loadRoomDataBegin`
(the synchronous part up to and including dispatching the fetch) and
`loadRoomDataFinish` (the continuation fed the fetch's result, including
the `finally` block). `fetchCalls` counts dispatched external fetches. -/

/-- The page state touched by `loadRoomData`. -/
structure AppState where
  isLoading : Bool
  refreshBtnDisabled : Bool
  loadingVisible : Bool
  errorVisible : Bool
  errorText : String
  emptyVisible : Bool
  gridRooms : List Record
  statusMsg : String
  fetchCalls : Nat
deriving DecidableEq

/-- `loadRoomData` up to the fetch dispatch: the `if (isLoading) return`
guard, then `isLoading = true`, button disabled, loading indicator shown,
error message hidden, and the fetch dispatched. Returns the new state and
whether a fetch was started. -/
def loadRoomDataBegin (s : AppState) : AppState × Bool :=
  if s.isLoading then (s, false)
  else
    ({ s with
        isLoading := true
        refreshBtnDisabled := true
        loadingVisible := true
        errorVisible := false
        fetchCalls := s.fetchCalls + 1 }, true)

/-- The rest of `loadRoomData` once the fetch settles: on success either
the empty state (zero rooms) or the rendered grid and status; on failure
the error message, failure status and the empty state — whose
`showEmptyState` clears the room grid; then the `finally` block. -/
def loadRoomDataFinish (result : Except String (List Record))
    (s : AppState) : AppState :=
  let s1 :=
    match result with
    | Except.ok rooms =>
      if rooms.length = 0 then
        { s with
            emptyVisible := true
            gridRooms := []
            statusMsg := "No rooms with data" }
      else
        { s with
            emptyVisible := false
            gridRooms := rooms
            statusMsg :=
              "Connected • " ++ toString rooms.length ++ " room(s)" }
    | Except.error msg =>
      { s with
          statusMsg := "Failed to load data"
          errorVisible := true
          errorText := "Failed to load room data: " ++ msg
          emptyVisible := true
          gridRooms := [] }
  { s1 with
      isLoading := false
      refreshBtnDisabled := false
      loadingVisible := false }

/-- C2: from an idle state, a first `loadRoomData` call starts a fetch;
a second call made before the first resolves is a no-op that starts no
fetch, so exactly one external fetch is dispatched; and every completion
(success or failure) clears the in-flight flag through the `finally`
block, so a later refresh can start. -/
theorem claim_C2_single_flight (s : AppState) (h : s.isLoading = false) :
    (loadRoomDataBegin s).2 = true ∧
      (loadRoomDataBegin (loadRoomDataBegin s).1).2 = false ∧
      (loadRoomDataBegin (loadRoomDataBegin s).1).1.fetchCalls =
        s.fetchCalls + 1 ∧
      ∀ (result : Except String (List Record)) (s' : AppState),
        (loadRoomDataFinish result s').isLoading = false := by
  refine ⟨?_, ?_, ?_, ?_⟩
  · simp [loadRoomDataBegin, h]
  · simp [loadRoomDataBegin, h]
  · simp [loadRoomDataBegin, h]
  · intro result s'
    cases result <;> simp [loadRoomDataFinish]

/-- Witness for C2 from a concrete idle page state. -/
theorem claim_C2_witness :
    (loadRoomDataBegin
        ⟨false, false, false, false, "", false, [], "", 0⟩).2 = true ∧
      (loadRoomDataBegin (loadRoomDataBegin
        ⟨false, false, false, false, "", false, [], "", 0⟩).1).2 = false ∧
      (loadRoomDataBegin (loadRoomDataBegin
        ⟨false, false, false, false, "", false, [], "", 0⟩).1).1.fetchCalls =
        0 + 1 ∧
      ∀ (result : Except String (List Record)) (s' : AppState),
        (loadRoomDataFinish result s').isLoading = false :=
  claim_C2_single_flight ⟨false, false, false, false, "", false, [], "", 0⟩
    rfl

/-- C6 counterexample: a fetch failure while room `"A"` is on display.
The failed cycle does not leave the previous successful result on
display: the error path runs `showEmptyState()`, which clears the grid. -/
theorem claim_C6_counterexample :
    (loadRoomDataFinish (Except.error "TypeError: Failed to fetch")
          ⟨true, true, true, false, "", false, [⟨"A", 10, 3⟩],
            "Connected • 1 room(s)", 1⟩).gridRooms = [] ∧
      ([] : List Record) ≠ [⟨"A", 10, 3⟩] := by
  exact ⟨rfl, by decide⟩

/-- C6 (amended): when the external fetch fails, `loadRoomData` surfaces
the failure (error message shown, status `"Failed to load data"`) and
returns the session to idle (`isLoading` false, button re-enabled,
loading indicator hidden), but it does not preserve the previous
successful result for continued display: it shows the empty state and
clears the rendered room grid. -/
theorem claim_C6_failure_path (msg : String) (s : AppState) :
    (loadRoomDataFinish (Except.error msg) s).errorVisible = true ∧
      (loadRoomDataFinish (Except.error msg) s).errorText =
        "Failed to load room data: " ++ msg ∧
      (loadRoomDataFinish (Except.error msg) s).statusMsg =
        "Failed to load data" ∧
      (loadRoomDataFinish (Except.error msg) s).isLoading = false ∧
      (loadRoomDataFinish (Except.error msg) s).refreshBtnDisabled = false ∧
      (loadRoomDataFinish (Except.error msg) s).loadingVisible = false ∧
      (loadRoomDataFinish (Except.error msg) s).emptyVisible = true ∧
      (loadRoomDataFinish (Except.error msg) s).gridRooms = [] := by
  simp [loadRoomDataFinish]

/-! ## ReadingRecord normalization (C3, C4) — modelled from the spec

The alias-tolerant row normalizer is documented in the repository (the
README: the app "supports both `person_count` and `people_count` column
names" and "validates and sanitizes counts (removes negatives)"; the fix
guide: the frontend "now auto-detects" the column name), but its
implementation is not among the provided sources. The definitions below
are modelled from the specification of the ReadingRecord Normalizer and
of the Latest-Per-Key Reducer it feeds. -/

/-- A raw field value of a fetched row: a JSON integer or a string. -/
inductive RawVal where
  | int (i : Int)
  | text (s : String)
deriving DecidableEq

/-- A raw timestamp field: a parsable absolute instant, or malformed. -/
inductive RawTime where
  | valid (t : Int)
  | malformed
deriving DecidableEq

/-- Modelled from the spec: a RawReading, a row of unknown/variable
shape — each field may be absent, and the count may sit under either of
the two accepted alias spellings. -/
structure RawReading where
  room_id : Option String
  people_count : Option RawVal
  person_count : Option RawVal
  timestamp : Option RawTime
deriving DecidableEq

/-- The canonical reading triple. -/
structure ReadingRecord where
  roomId : String
  count : Int
  observedAt : Int
deriving DecidableEq

/-- The row-level rejection reasons of the error taxonomy. -/
inductive NormError where
  | schemaError
  | invalidValueError
deriving DecidableEq

/-- Modelled from the spec: "parse as integer" for a raw count value. A
JSON integer is itself; a string must be an optionally-signed decimal
numeral. -/
def parseCount : RawVal → Option Int
  | RawVal.int i => some i
  | RawVal.text s =>
    match s.toList with
    | '-' :: rest =>
      if !rest.isEmpty && rest.all Char.isDigit then
        some (-(digitsToNat rest : Int))
      else none
    | cs =>
      if !cs.isEmpty && cs.all Char.isDigit then
        some ((digitsToNat cs : Int))
      else none

/-- Modelled from the spec: the count is read from whichever of the two
accepted count-field aliases is present. -/
def countField (raw : RawReading) : Option RawVal :=
  raw.people_count <|> raw.person_count

/-- Modelled from the spec: "the value is empty after trimming". -/
def isBlank (s : String) : Bool :=
  s.toList.all Char.isWhitespace

/-- Modelled from the spec: `normalize(raw) → ReadingRecord | Rejected`.
Room identifier required and non-blank (`SchemaError` otherwise); count
read from whichever alias is present (`SchemaError` when missing
entirely), `InvalidValueError` when it fails to parse as an integer or
is negative — the row is dropped, never clamped; timestamp must parse
(`SchemaError` otherwise). -/
def normalize (raw : RawReading) : Except NormError ReadingRecord :=
  match raw.room_id with
  | none => Except.error NormError.schemaError
  | some rid =>
    if isBlank rid then Except.error NormError.schemaError
    else
      match countField raw with
      | none => Except.error NormError.schemaError
      | some v =>
        match parseCount v with
        | none => Except.error NormError.invalidValueError
        | some c =>
          if c < 0 then Except.error NormError.invalidValueError
          else
            match raw.timestamp with
            | some (RawTime.valid t) => Except.ok ⟨rid, c, t⟩
            | _ => Except.error NormError.schemaError

/-- Modelled from the spec: the latest-per-key reducer over normalized
records — the first record of each room is retained, result in insertion
order of first-seen rooms. -/
def specReduceAux (acc : List ReadingRecord) :
    List ReadingRecord → List ReadingRecord
  | [] => acc
  | r :: rs =>
    specReduceAux
      (if acc.any (fun a => a.roomId == r.roomId) then acc else acc ++ [r])
      rs

/-- Modelled from the spec: reduction of a normalized record sequence. -/
def specReduce (records : List ReadingRecord) : List ReadingRecord :=
  specReduceAux [] records

/-- Modelled from the spec: the data half of a refresh cycle — normalize
each fetched row, silently drop the rejected rows, reduce the survivors
to one record per room. -/
def specPipeline (rows : List RawReading) : List ReadingRecord :=
  specReduce (rows.filterMap fun raw => (normalize raw).toOption)

/-- A record surviving normalization has a non-negative count. -/
lemma normalize_ok_nonneg {raw : RawReading} {rec : ReadingRecord}
    (h : normalize raw = Except.ok rec) : 0 ≤ rec.count := by
  unfold normalize at h
  repeat' split at h
  all_goals cases h
  dsimp only
  omega

/-- The reducer only rearranges records of its input. -/
lemma specReduceAux_mem :
    ∀ (l acc : List ReadingRecord) (r : ReadingRecord),
      r ∈ specReduceAux acc l → r ∈ acc ∨ r ∈ l
  | [], _, _, h => Or.inl h
  | a :: l, acc, r, h => by
    rcases specReduceAux_mem l _ r h with hin | hin
    · by_cases hc : acc.any (fun x => x.roomId == a.roomId) = true
      · rw [if_pos hc] at hin
        exact Or.inl hin
      · rw [if_neg hc] at hin
        rcases List.mem_append.1 hin with h1 | h2
        · exact Or.inl h1
        · simp only [List.mem_singleton] at h2
          subst h2
          exact Or.inr (List.mem_cons_self _ _)
    · exact Or.inr (List.mem_cons_of_mem _ hin)

/-- A raw row whose count field fails integer parsing or parses negative
never normalizes successfully. -/
lemma normalize_bad_count_drops {raw : RawReading} {v : RawVal}
    (hv : countField raw = some v)
    (hbad : parseCount v = none ∨ ∃ i, parseCount v = some i ∧ i < 0) :
    (normalize raw).toOption = none := by
  unfold normalize
  cases hrid : raw.room_id with
  | none => rfl
  | some rid =>
    dsimp only
    by_cases hb : isBlank rid = true
    · rw [if_pos hb]
      rfl
    · rw [if_neg hb, hv]
      rcases hbad with hn | ⟨i, hi, hneg⟩
      · simp [hn, Except.toOption]
      · simp [hi, hneg, Except.toOption]

/-- C4: a raw row whose count is negative or non-numeric is dropped, not
clamped — it normalizes to no record at all, and if it was the only row
for its room the room is absent from the reduced result; and every
record produced by the refresh cycle's pipeline has a non-negative
count. -/
theorem claim_C4_negative_drop :
    (∀ (raw : RawReading) (v : RawVal), countField raw = some v →
        (∀ i : Int, parseCount v = some i → i < 0 →
            (normalize raw).toOption = none ∧ specPipeline [raw] = []) ∧
          (parseCount v = none →
            (normalize raw).toOption = none ∧ specPipeline [raw] = [])) ∧
      ∀ (rows : List RawReading) (rec : ReadingRecord),
        rec ∈ specPipeline rows → 0 ≤ rec.count := by
  constructor
  · intro raw v hv
    constructor
    · intro i hi hneg
      have hd := normalize_bad_count_drops hv (Or.inr ⟨i, hi, hneg⟩)
      exact ⟨hd, by simp [specPipeline, List.filterMap, hd, specReduce,
        specReduceAux]⟩
    · intro hn
      have hd := normalize_bad_count_drops hv (Or.inl hn)
      exact ⟨hd, by simp [specPipeline, List.filterMap, hd, specReduce,
        specReduceAux]⟩
  · intro rows rec hrec
    unfold specPipeline specReduce at hrec
    rcases specReduceAux_mem _ _ _ hrec with habs | hin
    · exact absurd habs (List.not_mem_nil _)
    · rcases List.mem_filterMap.1 hin with ⟨raw, _, hok⟩
      cases hnorm : normalize raw with
      | ok r =>
        rw [hnorm] at hok
        cases hok
        exact normalize_ok_nonneg hnorm
      | error e =>
        rw [hnorm] at hok
        cases hok

/-- Witness for C4 on the spec's scenario row with count `-1`: dropped,
and its room is absent from the single-row pipeline result. -/
theorem claim_C4_witness :
    (normalize ⟨some "A", some (RawVal.int (-1)), none,
          some (RawTime.valid 0)⟩).toOption = none ∧
      specPipeline [⟨some "A", some (RawVal.int (-1)), none,
          some (RawTime.valid 0)⟩] = [] :=
  (claim_C4_negative_drop.1
      ⟨some "A", some (RawVal.int (-1)), none, some (RawTime.valid 0)⟩
      (RawVal.int (-1)) rfl).1 (-1) rfl (by decide)

/-- C3: a raw row carrying its count under the `person_count` alias
normalizes to exactly the same result as the otherwise-identical row
carrying it under `people_count`; and when such a row normalizes
successfully, its room appears in the room list produced by the
pipeline. -/
theorem claim_C3_count_alias (rid : String) (v : RawVal)
    (ts : Option RawTime) :
    normalize ⟨some rid, none, some v, ts⟩ =
        normalize ⟨some rid, some v, none, ts⟩ ∧
      ∀ rec : ReadingRecord,
        normalize ⟨some rid, none, some v, ts⟩ = Except.ok rec →
          (specPipeline [⟨some rid, none, some v, ts⟩]).map
              (fun r => r.roomId) = [rec.roomId] := by
  constructor
  · rfl
  · intro rec h
    simp [specPipeline, List.filterMap, h, specReduce, specReduceAux]

/-- Witness for C3 on the spec's scenario row (room `"A"`, count `3`
under `person_count`). -/
theorem claim_C3_witness :
    normalize ⟨some "A", none, some (RawVal.int 3),
          some (RawTime.valid 100)⟩ =
        normalize ⟨some "A", some (RawVal.int 3), none,
          some (RawTime.valid 100)⟩ ∧
      (specPipeline [⟨some "A", none, some (RawVal.int 3),
            some (RawTime.valid 100)⟩]).map (fun r => r.roomId) =
        [(⟨"A", 3, 100⟩ : ReadingRecord).roomId] := by
  have h := claim_C3_count_alias "A" (RawVal.int 3) (some (RawTime.valid 100))
  exact ⟨h.1, h.2 ⟨"A", 3, 100⟩ rfl⟩

end RoomOccupancy
